import Mathlib

/-
Verification of the nhp-js packet cryptography layer (OpenNHP/js-agent).

The development shallowly embeds the relevant parts of the source:

* `src/nhp-js/src/nhp.js` — the `NHPHeader` binary codec, the global counter,
  `buildNHPPacket`, and the (empty) `parseNHPPacket`.
* `src/nhp-js/src/crypto/sm2.ts` — `sm2ECDH`.
* `src/nhp-js/src/utils.js` — `stringToBytes`.

Byte buffers (JS `Uint8Array` over an `ArrayBuffer`) are modelled as total
functions `Nat → Nat`; every write masks the stored value with `% 256` as the
typed array does, and reads mask again.  Byte strings are `List Nat`.
Machine integers are `Nat` with explicit `% 2^32` / `% 2^64` where the source
relies on `Uint32Array` / `BigUint64Array` wrap-around.

The primitives imported from `crypto.js` (hashing, HKDF-style key derivation,
ChaCha20-Poly1305 sealing, X25519) are code of this repository that is not
under `src/`; they are modelled from the spec's cipher-suite contract (§4.1)
as an explicit structure `CryptoPrims` of opaque total functions, carrying
only the single size fact the spec guarantees (AEAD output = plaintext ‖
16-byte tag).  Randomness (the obfuscation preamble, the ephemeral key pair),
the wall clock and the `GlobalCounter` state are explicit inputs of the
embedded `buildNHPPacket`.

`nhp.js` as written cannot run.  The `NHPHeader` constructor (line 17)
reads `Header.SIZE`, and no `Header` binding exists anywhere in the module
(the class is `NHPHeader`; the `export … from` of line 1 creates no local
bindings — which also leaves `stringToBytes` unbound), so every
`buildNHPPacket` call throws a ReferenceError at
`new NHPHeader(packet.buffer)` (line 106), before the counter increment of
line 115 and before any hashing, key exchange, key derivation or sealing.
`buildNHPPacket` is embedded with exactly that behaviour: it returns the
ReferenceError, leaves the counter untouched and performs no seal.  The rest
of the body (lines 107–175) is unreachable; because several claims are about
what that body prescribes, its data flow is additionally embedded as a
family of explicitly dead definitions (`counterAfter`, `buf1Of` …
`packetBytesOf`, `sealsOf`): the value each dead statement would compute,
with the further statement-level faults noted in place (line 31 calls the
nonexistent `window.crypto.subtle.getRandomValues`; line 60 calls
`setBigUint64(v)` without a byte offset; line 161 names an undeclared
`buffer`).  No theorem presents those dead values as behaviour of the
program: they serve only to show that even the unreachable body contradicts
the specification.  Within the dead layer, all value-level behaviour
(operator precedence, property-name mismatches, silent length guards, the
absent HMAC write, the absent payload-size check, the incremental transcript
hashing) is embedded exactly as written.
-/

/-- One byte buffer, as in a JS `Uint8Array` view: index to stored byte. -/
abbrev Buf := Nat → Nat

/-- Uint8Array.prototype.set: write `data` at offset `off`, masking each
stored element to a byte, leaving every other index unchanged. -/
def writeBytes (f : Buf) (off : Nat) (data : List Nat) : Buf :=
  fun i => if off ≤ i ∧ i < off + data.length then (data.getD (i - off) 0) % 256 else f i

/-- Read the half-open byte range `[a, b)` of a buffer as a list. -/
def bufBytes (f : Buf) (a b : Nat) : List Nat :=
  (List.range (b - a)).map fun i => f (a + i)

/-- Slice `[a, b)` of a byte list (Uint8Array.prototype.subarray). -/
def sliceBytes (l : List Nat) (a b : Nat) : List Nat :=
  (l.drop a).take (b - a)

/-- Big-endian 32-bit encoding, as DataView.prototype.setUint32. -/
def be32 (n : Nat) : List Nat :=
  [n / 16777216 % 256, n / 65536 % 256, n / 256 % 256, n % 256]

/-- Big-endian 64-bit encoding, as DataView.prototype.setBigUint64. -/
def be64 (n : Nat) : List Nat :=
  [n / 72057594037927936 % 256, n / 281474976710656 % 256,
   n / 1099511627776 % 256, n / 4294967296 % 256,
   n / 16777216 % 256, n / 65536 % 256, n / 256 % 256, n % 256]

/-- DataView.prototype.getUint32 (big-endian default), reading four bytes. -/
def getUint32 (f : Buf) (off : Nat) : Nat :=
  (f off % 256) * 16777216 + (f (off + 1) % 256) * 65536 +
    (f (off + 2) % 256) * 256 + (f (off + 3) % 256)

/-- utils.js `stringToBytes`: UTF-8 encode; the two seed constants are ASCII,
so the bytes are the character codes. -/
def stringToBytes (s : String) : List Nat := s.data.map Char.toNat

/-- nhp.js line 9. -/
def InitialChainKeyString : String := "NHP keygen v.20230421@clouddeep.cn"

/-- nhp.js line 10. -/
def InitialHashString : String := "NHP hashgen v.20230421@deepcloudsdp.com"

/-- The chain-key seed bytes fed to `mixKey` at nhp.js line 127.  nhp.js
only re-exports `stringToBytes` (line 1) and never imports it, so lines
124–127 would themselves throw a ReferenceError were they ever reached; the
bytes here are the utils.js encoder's output. -/
def chainKeySeedBytes : List Nat := stringToBytes InitialChainKeyString

/-- The hash seed bytes fed to both hashers at nhp.js lines 124–125 (see
the note on `chainKeySeedBytes`: `stringToBytes` is unbound in nhp.js). -/
def hashSeedBytes : List Nat := stringToBytes InitialHashString

namespace NHPHeader

/-- nhp.js line 14: `static SIZE = 240` (the constructor writes `Header.SIZE`;
the only such constant in scope is this one). -/
def SIZE : Nat := 240

/-- nhp.js lines 29–36, the `typeAndPayloadSize` setter.  The real setter
throws a TypeError at line 31: `window.crypto.subtle` has no
`getRandomValues`.  This definition records the encode of lines 32–35 with
the random 32-bit preamble as an explicit input: the preamble is stored at
offset 0 and `preamble XOR tns` at offset 4, where — exactly as the source's
`type & 0x0000FFFF << 16 | size & 0x0000FFFF` parses, shift binding tighter
than and — `tns = (type AND 0xFFFF0000) OR (size AND 0xFFFF)`. -/
def setTypeAndPayloadSize (preamble type size : Nat) (f : Buf) : Buf :=
  let p32 := preamble % 4294967296
  let tns := ((type % 4294967296) &&& (65535 <<< 16)) ||| ((size % 4294967296) &&& 65535)
  writeBytes (writeBytes f 0 (be32 p32)) 4 (be32 (p32 ^^^ tns))

/-- nhp.js lines 21–27, the `typeAndPayloadSize` getter: XOR the two stored
words back together, then split into the high 16 bits (type) and the low 16
bits (size). -/
def typeAndPayloadSize (f : Buf) : Nat × Nat :=
  let val := getUint32 f 0 ^^^ getUint32 f 4
  ((val &&& 0xFFFF0000) >>> 16, val &&& 0xFFFF)

/-- nhp.js line 39: version bytes at offsets 8 and 9. -/
def setVersion (major minor : Nat) (f : Buf) : Buf :=
  writeBytes f 8 [major % 256, minor % 256]

/-- nhp.js line 60, the `counter` setter.  The real setter calls
`this.view.setBigUint64(v)` with the value in the byte-offset position and
no value argument, so it throws a TypeError and never writes anything.  This
definition records the write the field layout prescribes — the getter
(line 59) and the `nonce` getter (line 64) fix the counter field at bytes
16–24 — and is used only by the dead-body definitions, never by
`buildNHPPacket`. -/
def setCounter (v : Nat) (f : Buf) : Buf :=
  writeBytes f 16 (be64 (v % 18446744073709551616))

/-- nhp.js lines 62–66, the `nonce` getter: a fresh 12-byte array whose last
8 bytes are copied from the counter field (header bytes 16–24). -/
def nonce (f : Buf) : List Nat :=
  List.replicate 4 0 ++ bufBytes f 16 24

/-- nhp.js lines 69–73: write the 32-byte ephemeral key at offset 24, or do
nothing (and raise no error) when the length differs. -/
def setEphermeral (bytes : List Nat) (f : Buf) : Buf :=
  if bytes.length = 32 then writeBytes f 24 bytes else f

/-- nhp.js lines 76–80: write the 80-byte identity field at offset 56, or do
nothing (and raise no error) when the length differs. -/
def setIdentity (bytes : List Nat) (f : Buf) : Buf :=
  if bytes.length = 80 then writeBytes f 56 bytes else f

/-- nhp.js lines 83–87: write the 48-byte static field at offset 136, or do
nothing (and raise no error) when the length differs. -/
def setStatic (bytes : List Nat) (f : Buf) : Buf :=
  if bytes.length = 48 then writeBytes f 136 bytes else f

/-- nhp.js lines 90–94: write the 24-byte timestamp field at offset 184, or
do nothing (and raise no error) when the length differs. -/
def setTimestamp (bytes : List Nat) (f : Buf) : Buf :=
  if bytes.length = 24 then writeBytes f 184 bytes else f

/-- nhp.js lines 97–101: write the 32-byte hmac field at offset 208, or do
nothing (and raise no error) when the length differs. -/
def setHmac (bytes : List Nat) (f : Buf) : Buf :=
  if bytes.length = 32 then writeBytes f 208 bytes else f

end NHPHeader

/-- The pair returned by crypto.js `keyGen2` (used as `derivedKeys0.first` /
`.second` in nhp.js). -/
structure DerivedKeys where
  first : List Nat
  second : List Nat
deriving DecidableEq

/-- Modelled from the spec: the primitives imported from `crypto.js`, which is
code of this repository not under `src/` (only its callers are).  The spec's
cipher-suite contract (§4.1) specifies `hash`, `hmac`, `dh` and
`aeadSeal(key, nonce, plaintext, ad) = ciphertext ‖ tag`; the handshake state
(§4.2) specifies `mixKey` as an HMAC-based derivation; nhp.js additionally
imports `keyGen2` (derive two keys: the new chain key and a seal key), the
Base64 key decoders, and the X25519 key-object / byte conversions.  They are
modelled as opaque total functions on byte lists; the incremental SHA-256
hasher (`newSHA256Hash` / `updateSHA256` / `sumSHA256`) is modelled by the
standard semantics `sum = sha256 (concatenation of all updates)`.  The single
quantitative fact the contract pins down — sealing appends a 16-byte tag, as
nhp.js itself assumes at line 112 (`payloadSize = msg.length + 16`) — is
carried as the field `sealLength`. -/
structure CryptoPrims where
  sha256 : List Nat → List Nat
  mixKey : List Nat → List Nat → List Nat
  keyGen2 : List Nat → List Nat → DerivedKeys
  chacha20Seal : List Nat → List Nat → List Nat → List Nat → List Nat
  ecdhX25519 : List Nat → List Nat → List Nat
  x25519PublicKeyToBytes : List Nat → List Nat
  base64To25519PrivateKey : List Nat → List Nat
  base64To25519PublicKey : List Nat → List Nat
  sealLength : ∀ k n p a, (chacha20Seal k n p a).length = p.length + 16

/-- The inputs of one `buildNHPPacket` call: the five parameters of nhp.js
line 104 (the three key parameters are the Base64 strings, as byte lists of
character codes), plus the environment state the call starts from — the
`GlobalCounter` value before the call, the random obfuscation preamble, the
ephemeral key pair (private key and public-key object), and the
`getUnixNano` wall-clock reading; only the dead-body definitions consume the
latter three, since the real call throws before drawing any of them. -/
structure Inputs where
  type : Nat
  privateKey : List Nat
  publicKey : List Nat
  remotePublicKey : List Nat
  msg : List Nat
  counter : Nat
  preamble : Nat
  ephPriv : List Nat
  ephPubObj : List Nat
  now : Nat

/-- One recorded AEAD seal invocation inside `buildNHPPacket`: the key,
nonce, plaintext and associated data passed to `chacha20Seal`. -/
structure SealCall where
  key : List Nat
  nonce : List Nat
  plaintext : List Nat
  ad : List Nat
deriving DecidableEq

/-- JS runtime failures of `buildNHPPacket`: the ReferenceError that header
construction throws on every call (line 106, reading the undefined
`Header.SIZE` of line 17); and, in the unreachable body, the TypeError the
counter setter would throw (line 60) and the RangeError an oversize payload
write would raise (line 173). -/
inductive JsError where
  | referenceError
  | typeError
  | rangeError
deriving DecidableEq

deriving instance DecidableEq for Except

/-- What one `buildNHPPacket` call produces: the thrown error (or a
returned byte sequence), the `GlobalCounter` state after the call, and the
trace of AEAD seal invocations actually performed. -/
structure BuildResult where
  packet : Except JsError (List Nat)
  counter : Nat
  seals : List SealCall
deriving DecidableEq

/-
Dead-body layer.  The definitions from `counterAfter` to `hmacAccOf` embed
the data flow of the unreachable body of `buildNHPPacket` (nhp.js lines
107–175): the value each statement would compute were it ever reached.  The
real program executes none of them — every call throws at line 106 — and no
theorem below states these values as behaviour of the program; they serve
only to compare what the body prescribes with what the claims say.
-/

/-- Dead body, nhp.js line 115: `GlobalCounter[0]++` on a `BigUint64Array`,
which wraps modulo 2^64; never executed. -/
def counterAfter (inp : Inputs) : Nat :=
  (inp.counter + 1) % 18446744073709551616

/-- nhp.js line 113: `header.typeAndPayloadSize = {type, payloadSize}`.  The
setter destructures `{type, size}`, so `size` is `undefined` and the setter's
`size & 0x0000FFFF` coerces it to 0: the computed `payloadSize` never reaches
the header.  Applied to the zeroed packet buffer of line 105. -/
def buf1Of (inp : Inputs) : Buf :=
  NHPHeader.setTypeAndPayloadSize inp.preamble inp.type 0 (fun _ => 0)

/-- nhp.js line 114: `header.version = {major: 1, minor: 0}`. -/
def buf2Of (inp : Inputs) : Buf :=
  NHPHeader.setVersion 1 0 (buf1Of inp)

/-- nhp.js line 116: `header.counter = GlobalCounter[0]` after the increment. -/
def buf3Of (inp : Inputs) : Buf :=
  NHPHeader.setCounter (counterAfter inp) (buf2Of inp)

/-- nhp.js line 117: `const nonce = header.nonce`, read once from the header
buffer right after the counter write and reused for every seal. -/
def nonceOf (inp : Inputs) : List Nat :=
  NHPHeader.nonce (buf3Of inp)

/-- nhp.js line 126: the chain hash right after mixing the hash seed,
`sumSHA256` of a hasher that absorbed only `InitialHashString`. -/
def chainHashInit (prims : CryptoPrims) : List Nat :=
  prims.sha256 hashSeedBytes

/-- nhp.js line 127: `chainKey = mixKey(chainHash, InitialChainKeyString)`. -/
def chainKeyInitOf (prims : CryptoPrims) : List Nat :=
  prims.mixKey (chainHashInit prims) chainKeySeedBytes

/-- nhp.js line 133: the ephemeral public key bytes. -/
def ePublickeyOf (prims : CryptoPrims) (inp : Inputs) : List Nat :=
  prims.x25519PublicKeyToBytes inp.ephPubObj

/-- nhp.js line 136: the chain hash right after the ephemeral key is mixed.
The source uses one incremental hasher, so this is the hash of the whole
accumulated transcript `seed ‖ remotePublicKey ‖ ephemeralPublicKey` — note
that lines 129–130 feed the hashers the `remotePublicKey` parameter itself,
the Base64 string, not the decoded key — and no intermediate `sumSHA256` is
taken after the remote key alone. -/
def chainHashEOf (prims : CryptoPrims) (inp : Inputs) : List Nat :=
  prims.sha256 (hashSeedBytes ++ inp.remotePublicKey ++ ePublickeyOf prims inp)

/-- nhp.js line 137: `chainKey = mixKey(chainKey, ePublickey)`. -/
def chainKeyEOf (prims : CryptoPrims) (inp : Inputs) : List Nat :=
  prims.mixKey (chainKeyInitOf prims) (ePublickeyOf prims inp)

/-- nhp.js lines 139–140: the ephemeral–static shared secret
`ess = x25519PublicKeyToBytes (ecdhX25519 ephemeralPrivate remotePubKey)`. -/
def essOf (prims : CryptoPrims) (inp : Inputs) : List Nat :=
  prims.x25519PublicKeyToBytes
    (prims.ecdhX25519 inp.ephPriv (prims.base64To25519PublicKey inp.remotePublicKey))

/-- nhp.js line 143: `derivedKeys0 = keyGen2(chainKey, ess)`. -/
def derivedKeys0Of (prims : CryptoPrims) (inp : Inputs) : DerivedKeys :=
  prims.keyGen2 (chainKeyEOf prims inp) (essOf prims inp)

/-- nhp.js line 145: the static-field ciphertext.  The source passes the
`publicKey` parameter — the Base64 string — as the plaintext, not the decoded
`localPubKey` of line 109 (which is never used again). -/
def keyStaticOf (prims : CryptoPrims) (inp : Inputs) : List Nat :=
  prims.chacha20Seal (derivedKeys0Of prims inp).second (nonceOf inp)
    inp.publicKey (chainHashEOf prims inp)

/-- nhp.js line 149: the chain hash after the static ciphertext is mixed. -/
def chainHashSOf (prims : CryptoPrims) (inp : Inputs) : List Nat :=
  prims.sha256 (hashSeedBytes ++ inp.remotePublicKey ++ ePublickeyOf prims inp
    ++ keyStaticOf prims inp)

/-- nhp.js lines 151–152: the static–static shared secret
`ss = x25519PublicKeyToBytes (ecdhX25519 localPrivKey remotePubKey)`. -/
def ssOf (prims : CryptoPrims) (inp : Inputs) : List Nat :=
  prims.x25519PublicKeyToBytes
    (prims.ecdhX25519 (prims.base64To25519PrivateKey inp.privateKey)
      (prims.base64To25519PublicKey inp.remotePublicKey))

/-- nhp.js line 155: `derivedKeys1 = keyGen2(chainKey, ss)` with the chain
key advanced to `derivedKeys0.first` at line 144. -/
def derivedKeys1Of (prims : CryptoPrims) (inp : Inputs) : DerivedKeys :=
  prims.keyGen2 (derivedKeys0Of prims inp).first (ssOf prims inp)

/-- Dead body, nhp.js lines 158–161: the 8 timestamp bytes placed in
`tsBuf` by `setBigUint64(0, getUnixNano())`.  Line 161 itself,
`new Uint8Array(buffer)`, names an undeclared `buffer` and would throw a
ReferenceError were it reached; the only ArrayBuffer in scope is `tsBuf` of
line 158, whose bytes this definition records. -/
def tsOf (inp : Inputs) : List Nat :=
  be64 (inp.now % 18446744073709551616)

/-- nhp.js line 163: the timestamp ciphertext. -/
def tsStaticOf (prims : CryptoPrims) (inp : Inputs) : List Nat :=
  prims.chacha20Seal (derivedKeys1Of prims inp).second (nonceOf inp)
    (tsOf inp) (chainHashSOf prims inp)

/-- nhp.js line 167: `derivedKeys2 = keyGen2(chainKey, tsStatic)` with the
chain key advanced to `derivedKeys1.first` at line 156. -/
def derivedKeys2Of (prims : CryptoPrims) (inp : Inputs) : DerivedKeys :=
  prims.keyGen2 (derivedKeys1Of prims inp).first (tsStaticOf prims inp)

/-- nhp.js line 170: the chain hash after the timestamp ciphertext is mixed. -/
def chainHashTOf (prims : CryptoPrims) (inp : Inputs) : List Nat :=
  prims.sha256 (hashSeedBytes ++ inp.remotePublicKey ++ ePublickeyOf prims inp
    ++ keyStaticOf prims inp ++ tsStaticOf prims inp)

/-- nhp.js line 172: the payload ciphertext. -/
def msgStaticOf (prims : CryptoPrims) (inp : Inputs) : List Nat :=
  prims.chacha20Seal (derivedKeys2Of prims inp).second (nonceOf inp)
    inp.msg (chainHashTOf prims inp)

/-- Dead body: the three `chacha20Seal` invocations the body prescribes, in
call order (lines 145, 163, 172); the real program performs none of them. -/
def sealsOf (prims : CryptoPrims) (inp : Inputs) : List SealCall :=
  [⟨(derivedKeys0Of prims inp).second, nonceOf inp, inp.publicKey, chainHashEOf prims inp⟩,
   ⟨(derivedKeys1Of prims inp).second, nonceOf inp, tsOf inp, chainHashSOf prims inp⟩,
   ⟨(derivedKeys2Of prims inp).second, nonceOf inp, inp.msg, chainHashTOf prims inp⟩]

/-- nhp.js line 134: `header.ephermeral = ePublickey`. -/
def buf4Of (prims : CryptoPrims) (inp : Inputs) : Buf :=
  NHPHeader.setEphermeral (ePublickeyOf prims inp) (buf3Of inp)

/-- nhp.js line 146: `header.static = keyStatic`. -/
def buf5Of (prims : CryptoPrims) (inp : Inputs) : Buf :=
  NHPHeader.setStatic (keyStaticOf prims inp) (buf4Of prims inp)

/-- nhp.js line 164: `header.timestamp = tsStatic`. -/
def buf6Of (prims : CryptoPrims) (inp : Inputs) : Buf :=
  NHPHeader.setTimestamp (tsStaticOf prims inp) (buf5Of prims inp)

/-- Dead body, nhp.js line 175: the byte sequence the return statement
would produce, `packet.subarray(0, 240 + msg.length + 16)` after the payload
ciphertext is written at offset 240 (the write at line 173 would itself
raise a RangeError for payloads beyond 4096 − 240 − 16 = 3840 bytes). -/
def packetBytesOf (prims : CryptoPrims) (inp : Inputs) : List Nat :=
  bufBytes (writeBytes (buf6Of prims inp) 240 (msgStaticOf prims inp))
    0 (240 + inp.msg.length + 16)

/-- nhp.js lines 121, 124, 129: the transcript absorbed by `hmacHasher`.  The
hasher is created and fed the seed and the remote public key, but the source
never takes its sum and never assigns `header.hmac`; this definition exists
to document that dead state. -/
def hmacAccOf (inp : Inputs) : List Nat :=
  hashSeedBytes ++ inp.remotePublicKey

/-- nhp.js lines 104–176, `buildNHPPacket`, as the program actually
behaves.  After the buffer allocation of line 105, the first statement
`new NHPHeader(packet.buffer)` (line 106) runs the constructor, which reads
`Header.SIZE` (line 17); no `Header` binding exists in the module, so every
call throws a ReferenceError there.  Execution never reaches the counter
increment (line 115), the hashers, either key exchange, any key derivation
or any seal, and no packet is ever returned: the counter state is unchanged
and the seal trace is empty, for every payload and every cipher suite. -/
def buildNHPPacket (_prims : CryptoPrims) (inp : Inputs) : BuildResult :=
  { packet := Except.error JsError.referenceError
    counter := inp.counter
    seals := [] }

/-- nhp.js lines 178–180, `parseNHPPacket`: the body is empty, so the call
returns `undefined` for every input — it never yields a parsed packet. -/
def parseNHPPacket (_bytes : List Nat) : Option (Nat × List Nat × List Nat × List Nat) :=
  none

/-- sm2.ts error kind: both size guards throw an invalid-key-size `Error`. -/
inductive SM2Error where
  | invalidKeySize
deriving DecidableEq

/-- sm2.ts lines 98–116, `sm2ECDH`.  The underlying `sm2.ecdh` of the
external `sm-crypto-v2` npm library is a parameter; the hex round-trip
(`bytesToHex` / the `'04' +` uncompressed-point prefix) is modelled at byte
level, the prefix becoming a leading `0x04` byte.  The guards run before the
library is touched, and the result keeps only the first 32 bytes
(`sharedSecret.slice(0, 32)`, the X coordinate). -/
def sm2ECDH (ecdh : List Nat → List Nat → List Nat) (privateKey publicKey : List Nat) :
    Except SM2Error (List Nat) :=
  if privateKey.length ≠ 32 then Except.error SM2Error.invalidKeySize
  else if publicKey.length ≠ 64 then Except.error SM2Error.invalidKeySize
  else Except.ok ((ecdh privateKey (4 :: publicKey)).take 32)

/-- A concrete cipher-suite instance used to evaluate the theorems at
explicit inputs: the hash tags its input with the input length, `keyGen2`
returns length-tagged copies of `(chainKey, inputKeyMaterial)`, and sealing
appends a 16-byte zero tag (so it satisfies the spec's length contract). -/
def prims0 : CryptoPrims where
  sha256 := fun l => l.length % 256 :: (l ++ List.replicate 31 0).take 31
  mixKey := fun a b => 2 :: (a ++ b)
  keyGen2 := fun a b => ⟨0 :: (a ++ b), a.length :: (a ++ b)⟩
  chacha20Seal := fun _ _ p _ => p ++ List.replicate 16 0
  ecdhX25519 := fun a b => a ++ b
  x25519PublicKeyToBytes := fun x => x
  base64To25519PrivateKey := fun x => x
  base64To25519PublicKey := fun x => x
  sealLength := fun _ _ p _ => by simp

/-- A small concrete build input used by the witnesses. -/
def inp0 : Inputs where
  type := 1
  privateKey := [3]
  publicKey := [5]
  remotePublicKey := [7]
  msg := [9]
  counter := 0
  preamble := 0
  ephPriv := [2]
  ephPubObj := [4]
  now := 0

/-- The witness input for the static-field claim: the `publicKey` parameter
is a standard 44-character Base64 encoding of a 32-byte X25519 public key
(here 44 copies of the character code of the letter A). -/
def inp44 : Inputs := { inp0 with publicKey := List.replicate 44 65 }

/-- The witness input for the oversize-payload claim: a payload one byte past
the 4096 − 240 − 16 = 3840-byte budget. -/
def inpBig : Inputs := { inp0 with msg := List.replicate 3841 0 }

lemma be32_length (n : Nat) : (be32 n).length = 4 := by simp [be32]

lemma be64_length (n : Nat) : (be64 n).length = 8 := by simp [be64]

lemma bufBytes_writeBytes_out (f : Buf) (off : Nat) (data : List Nat) (a b : Nat)
    (h : b ≤ off ∨ off + data.length ≤ a) :
    bufBytes (writeBytes f off data) a b = bufBytes f a b := by
  unfold bufBytes writeBytes
  refine List.map_congr_left fun i hi => ?_
  rw [List.mem_range] at hi
  have hcond : ¬ (off ≤ a + i ∧ a + i < off + data.length) := by omega
  simp [hcond]

lemma bufBytes_zero (a b : Nat) : bufBytes (fun _ => 0) a b = List.replicate (b - a) 0 := by
  unfold bufBytes
  apply List.ext_getElem <;> simp

lemma sliceBytes_bufBytes (f : Buf) (n a b : Nat) (h : b ≤ n) :
    sliceBytes (bufBytes f 0 n) a b = bufBytes f a b := by
  unfold sliceBytes bufBytes
  apply List.ext_getElem
  · simp
    omega
  · intro i h1 h2
    simp only [List.getElem_take, List.getElem_drop, List.getElem_map, List.getElem_range] at h1 ⊢
    congr 1
    omega

lemma bufBytes_setTypeAndPayloadSize_out (preamble type size : Nat) (f : Buf) (a b : Nat)
    (h : 8 ≤ a) :
    bufBytes (NHPHeader.setTypeAndPayloadSize preamble type size f) a b = bufBytes f a b := by
  unfold NHPHeader.setTypeAndPayloadSize
  rw [bufBytes_writeBytes_out _ _ _ _ _ (Or.inr (by rw [be32_length]; omega)),
    bufBytes_writeBytes_out _ _ _ _ _ (Or.inr (by rw [be32_length]; omega))]

lemma bufBytes_setVersion_out (major minor : Nat) (f : Buf) (a b : Nat) (h : 10 ≤ a) :
    bufBytes (NHPHeader.setVersion major minor f) a b = bufBytes f a b := by
  unfold NHPHeader.setVersion
  rw [bufBytes_writeBytes_out _ _ _ _ _ (Or.inr (by simp; omega))]

lemma bufBytes_setCounter_out (v : Nat) (f : Buf) (a b : Nat) (h : b ≤ 16 ∨ 24 ≤ a) :
    bufBytes (NHPHeader.setCounter v f) a b = bufBytes f a b := by
  unfold NHPHeader.setCounter
  rw [bufBytes_writeBytes_out _ _ _ _ _ (by rw [be64_length]; omega)]

lemma bufBytes_setEphermeral_out (bytes : List Nat) (f : Buf) (a b : Nat)
    (h : b ≤ 24 ∨ 56 ≤ a) :
    bufBytes (NHPHeader.setEphermeral bytes f) a b = bufBytes f a b := by
  unfold NHPHeader.setEphermeral
  split
  case isTrue hc => rw [bufBytes_writeBytes_out _ _ _ _ _ (by omega)]
  case isFalse => rfl

lemma bufBytes_setStatic_out (bytes : List Nat) (f : Buf) (a b : Nat)
    (h : b ≤ 136 ∨ 184 ≤ a) :
    bufBytes (NHPHeader.setStatic bytes f) a b = bufBytes f a b := by
  unfold NHPHeader.setStatic
  split
  case isTrue hc => rw [bufBytes_writeBytes_out _ _ _ _ _ (by omega)]
  case isFalse => rfl

lemma bufBytes_setTimestamp_out (bytes : List Nat) (f : Buf) (a b : Nat)
    (h : b ≤ 184 ∨ 208 ≤ a) :
    bufBytes (NHPHeader.setTimestamp bytes f) a b = bufBytes f a b := by
  unfold NHPHeader.setTimestamp
  split
  case isTrue hc => rw [bufBytes_writeBytes_out _ _ _ _ _ (by omega)]
  case isFalse => rfl

lemma bufBytes_buf6_of_ge (prims : CryptoPrims) (inp : Inputs) (a b : Nat) (h : 208 ≤ a) :
    bufBytes (buf6Of prims inp) a b = List.replicate (b - a) 0 := by
  unfold buf6Of buf5Of buf4Of buf3Of buf2Of buf1Of
  rw [bufBytes_setTimestamp_out _ _ _ _ (Or.inr h),
    bufBytes_setStatic_out _ _ _ _ (Or.inr (by omega)),
    bufBytes_setEphermeral_out _ _ _ _ (Or.inr (by omega)),
    bufBytes_setCounter_out _ _ _ _ (Or.inr (by omega)),
    bufBytes_setVersion_out _ _ _ _ _ (by omega),
    bufBytes_setTypeAndPayloadSize_out _ _ _ _ _ _ (by omega),
    bufBytes_zero]

/-- C1: the claimed round-trip `parse (build …) = (type, publicKey,
timestamp, payload)` cannot hold for any input: `parseNHPPacket` (nhp.js
lines 178–180) has an empty body and returns `undefined` — here `none` — for
every byte sequence, including every packet produced by `buildNHPPacket`. -/
theorem c1_parse_stub_thm (bytes : List Nat) : parseNHPPacket bytes = none := rfl

/-- C2: contrary to the claim, no AEAD seal operation ever runs inside
`buildNHPPacket`: every call throws a ReferenceError at header construction
(nhp.js line 106, via the undefined `Header.SIZE` of line 17) before any key
derivation or seal, so no nonce — shared or otherwise — is ever passed to
any seal; moreover, in the unreachable remainder of the body, the counter
setter itself (line 60) would throw a TypeError before writing the header's
counter field, the claimed source of the nonce bytes. -/
theorem c2_nonce_reuse_thm (prims : CryptoPrims) (inp : Inputs) :
    (buildNHPPacket prims inp).seals = [] ∧
    (buildNHPPacket prims inp).packet = Except.error JsError.referenceError :=
  ⟨rfl, rfl⟩

/-- C3: contrary to the claim, `buildNHPPacket` never increments the global
counter: every call throws at `new NHPHeader` (nhp.js line 106) before
`GlobalCounter[0]++` (line 115), so the counter state after the call equals
the state before it, there is no monotone progression across builds, and the
incremented value is never written into the header (the line-60 setter would
throw a TypeError in any case). -/
theorem c3_counter_thm (prims : CryptoPrims) (inp : Inputs) :
    (buildNHPPacket prims inp).counter = inp.counter ∧
    (buildNHPPacket prims inp).packet = Except.error JsError.referenceError :=
  ⟨rfl, rfl⟩

/-- C5: contrary to the claim, no HMAC tag is ever written: no call returns
a packet at all (first conjunct), and even the unreachable body never
touches the tag field — the `hmacHasher` of line 121 is fed data but never
summed, `header.hmac` is never assigned anywhere in lines 104–176, and bytes
208–240 of the byte sequence line 175 would return are still the zeros the
buffer was created with (second conjunct). -/
theorem c5_hmac_missing_thm (prims : CryptoPrims) (inp : Inputs) :
    (buildNHPPacket prims inp).packet = Except.error JsError.referenceError ∧
    sliceBytes (packetBytesOf prims inp) 208 240 = List.replicate 32 0 := by
  refine ⟨rfl, ?_⟩
  unfold packetBytesOf
  rw [sliceBytes_bufBytes _ _ _ _ (by omega),
    bufBytes_writeBytes_out _ _ _ _ _ (Or.inl (by omega)),
    bufBytes_buf6_of_ge _ _ _ _ (by omega)]

/-- C6: contrary to the claim, no transcript mixing ever happens: every call
throws at line 106 before the hashers of lines 121–122 exist, so no
chain-hash value is ever computed or supplied as AEAD associated data (first
and second conjuncts).  Moreover the unreachable body would not satisfy the
claim either: it keeps one incremental hasher, so the associated data of its
three would-be seals are the flat running hashes of the seed followed by the
transcript so far (third conjunct), not the claimed nested
`Hash(previousChainHash ‖ mixedData)` — and no snapshot is taken right after
the remote public key alone. -/
theorem c6_chain_hash_thm (prims : CryptoPrims) (inp : Inputs) :
    (buildNHPPacket prims inp).seals = [] ∧
    (buildNHPPacket prims inp).packet = Except.error JsError.referenceError ∧
    ((sealsOf prims inp).map fun s => s.ad) =
      [prims.sha256 (hashSeedBytes ++ inp.remotePublicKey ++ ePublickeyOf prims inp),
       prims.sha256 (hashSeedBytes ++ inp.remotePublicKey ++ ePublickeyOf prims inp
         ++ keyStaticOf prims inp),
       prims.sha256 (hashSeedBytes ++ inp.remotePublicKey ++ ePublickeyOf prims inp
         ++ keyStaticOf prims inp ++ tsStaticOf prims inp)] :=
  ⟨rfl, rfl, rfl⟩

/-- C7: contrary to the claim, the static field never holds the seal of the
local static public key.  No call performs any seal or returns any packet
(first and second conjuncts); and the unreachable body would not satisfy the
claim either: line 145 passes the Base64 `publicKey` parameter as the
plaintext — the decoded `localPubKey` of line 109 is never used (third
conjunct) — so for a standard 44-character Base64 key the would-be
ciphertext is 44 + 16 = 60 bytes (fourth conjunct), the length-48 guard of
`header.static` silently drops the write, and bytes 136–184 of the would-be
packet stay all zeros (fifth conjunct). -/
theorem c7_static_field_thm (prims : CryptoPrims) (inp : Inputs)
    (h44 : inp.publicKey.length = 44) :
    (buildNHPPacket prims inp).seals = [] ∧
    (buildNHPPacket prims inp).packet = Except.error JsError.referenceError ∧
    ((sealsOf prims inp).map fun s => s.plaintext) = [inp.publicKey, tsOf inp, inp.msg] ∧
    (keyStaticOf prims inp).length = 60 ∧
    sliceBytes (packetBytesOf prims inp) 136 184 = List.replicate 48 0 := by
  have hks : (keyStaticOf prims inp).length = inp.publicKey.length + 16 :=
    prims.sealLength _ _ _ _
  refine ⟨rfl, rfl, rfl, by omega, ?_⟩
  unfold packetBytesOf
  rw [sliceBytes_bufBytes _ _ _ _ (by omega),
    bufBytes_writeBytes_out _ _ _ _ _ (Or.inl (by omega))]
  unfold buf6Of
  rw [bufBytes_setTimestamp_out _ _ _ _ (Or.inl (by omega))]
  unfold buf5Of
  unfold NHPHeader.setStatic
  rw [if_neg (by omega)]
  unfold buf4Of
  rw [bufBytes_setEphermeral_out _ _ _ _ (Or.inr (by omega))]
  unfold buf3Of buf2Of buf1Of
  rw [bufBytes_setCounter_out _ _ _ _ (Or.inr (by omega)),
    bufBytes_setVersion_out _ _ _ _ _ (by omega),
    bufBytes_setTypeAndPayloadSize_out _ _ _ _ _ _ (by omega),
    bufBytes_zero]

/-- C7 witness: the same facts at the concrete 44-character Base64 public
key input. -/
theorem c7_static_field_witness :
    (buildNHPPacket prims0 inp44).seals = [] ∧
    (buildNHPPacket prims0 inp44).packet = Except.error JsError.referenceError ∧
    ((sealsOf prims0 inp44).map fun s => s.plaintext) =
      [inp44.publicKey, tsOf inp44, inp44.msg] ∧
    (keyStaticOf prims0 inp44).length = 60 ∧
    sliceBytes (packetBytesOf prims0 inp44) 136 184 = List.replicate 48 0 :=
  c7_static_field_thm prims0 inp44 (by decide)

/-- C8: contrary to the claim, there is no `PayloadTooLarge` rejection and
no payload-size check at all: the oversize 3841-byte call fails with the
same ReferenceError as the 1-byte call, thrown at header construction
(line 106) before any key derivation, so the failure is unconditional on the
payload; the global counter is indeed left unchanged, but by the crash, not
by the claimed early size check. -/
theorem c8_oversize_thm :
    (buildNHPPacket prims0 inpBig).packet = Except.error JsError.referenceError ∧
    (buildNHPPacket prims0 inpBig).counter = inpBig.counter ∧
    (buildNHPPacket prims0 inpBig).seals = [] ∧
    (buildNHPPacket prims0 inp0).packet = Except.error JsError.referenceError ∧
    (buildNHPPacket prims0 inp0).counter = inp0.counter :=
  ⟨rfl, rfl, rfl, rfl, rfl⟩

/-- C9: `sm2ECDH` returns exactly the first 32 bytes of the raw shared
secret produced by the underlying library primitive on a 32-byte private key
and a 64-byte public key (with the `04` uncompressed-point prefix added),
and for any other input lengths it fails with the invalid-key-size error
before the key exchange runs — the result is then independent of the
primitive, and nothing is truncated or padded to fit. -/
theorem c9_sm2ecdh_thm (ecdh : List Nat → List Nat → List Nat) (priv pub : List Nat) :
    (priv.length = 32 → pub.length = 64 →
      sm2ECDH ecdh priv pub = Except.ok ((ecdh priv (4 :: pub)).take 32)) ∧
    (priv.length ≠ 32 ∨ pub.length ≠ 64 →
      sm2ECDH ecdh priv pub = Except.error SM2Error.invalidKeySize ∧
      ∀ g : List Nat → List Nat → List Nat, sm2ECDH g priv pub = sm2ECDH ecdh priv pub) := by
  unfold sm2ECDH
  constructor
  · intro h1 h2
    rw [if_neg (by omega), if_neg (by omega)]
  · intro h
    rcases h with h | h
    · rw [if_pos h]
      exact ⟨rfl, fun g => by rw [if_pos h]⟩
    · by_cases hp : priv.length ≠ 32
      · rw [if_pos hp]
        exact ⟨rfl, fun g => by rw [if_pos hp]⟩
      · rw [if_neg hp, if_pos h]
        exact ⟨rfl, fun g => by rw [if_neg hp, if_pos h]⟩

/-- C9 witness: correct sizes give the 32-byte truncation of the raw shared
secret; a 31-byte private key gives the invalid-key-size error. -/
theorem c9_sm2ecdh_witness :
    sm2ECDH (fun a b => a ++ b) (List.replicate 32 7) (List.replicate 64 9) =
      Except.ok ((List.replicate 32 7 ++ (4 :: List.replicate 64 9)).take 32) ∧
    sm2ECDH (fun a b => a ++ b) (List.replicate 31 7) (List.replicate 64 9) =
      Except.error SM2Error.invalidKeySize := by
  refine ⟨(c9_sm2ecdh_thm _ _ _).1 (by simp) (by simp), ?_⟩
  exact ((c9_sm2ecdh_thm (fun a b => a ++ b) (List.replicate 31 7) (List.replicate 64 9)).2
    (Or.inl (by simp))).1
/-- C4: evaluation of the codec at a concrete input.  Writing type 1 and size
5 under preamble 0x12345678 and reading the field back yields `(0, 5)`: the
random preamble cancels, but the setter's `type & 0x0000FFFF << 16` (shift
binds tighter than and) masks the 16-bit type against 0xFFFF0000, losing it,
while the getter extracts the type from the high 16 bits.  The claimed
round-trip `(1, 5)` fails. -/
theorem c4_type_obfuscation_eval :
    NHPHeader.typeAndPayloadSize
      (NHPHeader.setTypeAndPayloadSize 305419896 1 5 (fun _ => 0)) = (0, 5) := by
  decide

/-- C10: each of the five guarded `NHPHeader` field setters (`ephermeral`,
`identity`, `static`, `timestamp`, `hmac`), given bytes whose length differs
from the field's fixed width (32, 80, 48, 24, 32), returns the buffer
unchanged — every byte is untouched — and, being a total function, raises no
error. -/
theorem c10_setter_guard_thm (f : Buf) (b : List Nat) :
    (b.length ≠ 32 → NHPHeader.setEphermeral b f = f) ∧
    (b.length ≠ 80 → NHPHeader.setIdentity b f = f) ∧
    (b.length ≠ 48 → NHPHeader.setStatic b f = f) ∧
    (b.length ≠ 24 → NHPHeader.setTimestamp b f = f) ∧
    (b.length ≠ 32 → NHPHeader.setHmac b f = f) := by
  refine ⟨fun h => ?_, fun h => ?_, fun h => ?_, fun h => ?_, fun h => ?_⟩ <;>
    simp [NHPHeader.setEphermeral, NHPHeader.setIdentity, NHPHeader.setStatic,
      NHPHeader.setTimestamp, NHPHeader.setHmac, h]

/-- C10 witness: a 3-byte write is ignored by all five setters on the zero
buffer. -/
theorem c10_setter_guard_witness :
    NHPHeader.setEphermeral [1, 2, 3] (fun _ => 0) = (fun _ => 0) ∧
    NHPHeader.setIdentity [1, 2, 3] (fun _ => 0) = (fun _ => 0) ∧
    NHPHeader.setStatic [1, 2, 3] (fun _ => 0) = (fun _ => 0) ∧
    NHPHeader.setTimestamp [1, 2, 3] (fun _ => 0) = (fun _ => 0) ∧
    NHPHeader.setHmac [1, 2, 3] (fun _ => 0) = (fun _ => 0) := by
  have h := c10_setter_guard_thm (fun _ => 0) [1, 2, 3]
  exact ⟨h.1 (by decide), h.2.1 (by decide), h.2.2.1 (by decide),
    h.2.2.2.1 (by decide), h.2.2.2.2 (by decide)⟩

